import Mathlib

/-!
Verification development for the scene-configuration sampler of the
renderstim repository.

The embedded code is `latent_dataset` from `src/renderstim/latents/dataset.py`
together with `get_hdri_id` from `src/renderstim/latents/hdri.py`.  The helper
modules `textures.py`, `materials.py` and `utils.py` are not part of the
source tree, so `get_texture`, `get_material`, `get_quaternion` and the
GSO identifier list are modelled from the specification (each such definition
carries a doc comment starting with `Modelled from the spec:`).

Python floats are idealised as exact rationals; the numpy random machinery is
modelled by explicit streams of unit draws in `[0,1)` threaded through every
sampling step, in the exact order in which the source consumes randomness.
-/

namespace RenderStim

/-- Error taxonomy.  The source raises `ValueError` everywhere; following the
spec's taxonomy we separate the dataset function's own parameter errors
(`invalidParameter`, §4.1/§7), numpy's error for a without-replacement draw
larger than the population (`seedExhaustion`, §4.2), and `ValueError`s raised
inside numpy primitives during per-scene sampling (`numpyValueError`:
`randint` with `low >= high`, `choice` from an empty or negative-size pool). -/
inductive Err where
  | invalidParameter (msg : String)
  | seedExhaustion
  | numpyValueError
deriving Repr, DecidableEq

/-- A seeded random stream: `stream k` is the `k`-th unit draw (ideally in
`[0,1)`), `k` the position.  Models `np.random.RandomState(seed)`. -/
structure RNG where
  stream : Nat → ℚ
  k : Nat

/-- Consume one unit draw. -/
def RNG.next (r : RNG) : ℚ × RNG :=
  (r.stream r.k, ⟨r.stream, r.k + 1⟩)

/-- All unit draws of a stream lie in `[0,1)` (numpy's contract for its
underlying uniform generator). -/
def ValidStream (f : Nat → ℚ) : Prop :=
  ∀ k, 0 ≤ f k ∧ f k < 1

/-- `rng.uniform(lo, hi)`: one draw, affinely rescaled to `[lo, hi)`. -/
def uniform (lo hi : ℚ) (r : RNG) : ℚ × RNG :=
  let (u, r1) := r.next
  (lo + u * (hi - lo), r1)

/-- `rng.uniform(lo, hi, size=n)`: `n` successive rescaled draws. -/
def uniformN (lo hi : ℚ) : Nat → RNG → List ℚ × RNG
  | 0, r => ([], r)
  | n + 1, r =>
      let (x, r1) := uniform lo hi r
      let (xs, r2) := uniformN lo hi n r1
      (x :: xs, r2)

/-- `rng.randint(lo, hi)`: uniform integer in `[lo, hi)`; numpy raises
`ValueError` when `lo >= hi`. -/
def randint (lo hi : ℤ) (r : RNG) : Except Err (ℤ × RNG) :=
  if lo < hi then
    let (u, r1) := r.next
    .ok (lo + ⌊u * ((hi : ℚ) - (lo : ℚ))⌋, r1)
  else .error .numpyValueError

/-- `rng.choice(l)` on a sequence: one uniform index; numpy raises
`ValueError` on an empty pool. -/
def listChoice {α : Type} (l : List α) (r : RNG) : Except Err (α × RNG) :=
  if h : 0 < l.length then
    let (u, r1) := r.next
    .ok (l.get ⟨(⌊u * (l.length : ℚ)⌋).toNat % l.length, Nat.mod_lt _ h⟩, r1)
  else .error .numpyValueError

/-- `rng.choice(l, size=n)` (with replacement): `n` successive choices. -/
def listChoiceN {α : Type} (l : List α) : Nat → RNG → Except Err (List α × RNG)
  | 0, r => .ok ([], r)
  | n + 1, r => do
      let (a, r1) ← listChoice l r
      let (as, r2) ← listChoiceN l n r1
      .ok (a :: as, r2)

/-! ### The top-level seed draw

`np.random.default_rng().choice(2147483647, size=num_scenes, replace=False)`
draws `num_scenes` distinct integers from `[0, 2147483647)`.  The unseeded
generator is modelled by an arbitrary entropy function `Nat → Nat`; the
without-replacement draw is realised as rank selection from the pool of
not-yet-used values, so distinctness and the range bound hold for every
entropy (uniformity over outcomes corresponds to the entropy being
arbitrary). -/

/-- The `r`-th smallest natural number not occurring in `used`
(`used` in strictly ascending order). -/
def nthUnused : List Nat → Nat → Nat
  | [], r => r
  | u :: rest, r => if u ≤ r then nthUnused rest (r + 1) else r

/-- Insert into an ascending list, keeping order. -/
def insertAsc (a : Nat) : List Nat → List Nat
  | [] => [a]
  | b :: l => if a ≤ b then a :: b :: l else b :: insertAsc a l

/-- Modelled from the spec: the seed generator (§4.2), i.e. the numpy call
`default_rng().choice(u, size=n, replace=False)` whose internals are external
library code.  `entropy i` drives the `i`-th draw; `used` is the ascending
list of already-drawn values. -/
def drawSeeds (u : Nat) (entropy : Nat → Nat) : Nat → Nat → List Nat → List Nat
  | 0, _, _ => []
  | n + 1, i, used =>
      let s := nthUnused used (entropy i % (u - used.length))
      s :: drawSeeds u entropy n (i + 1) (insertAsc s used)

/-! ### Lemmas on the primitives -/

theorem RNG.next_stream (r : RNG) : (r.next).2.stream = r.stream := rfl

theorem uniform_mem {lo hi : ℚ} (hlt : lo < hi) {r : RNG}
    (hv : ValidStream r.stream) :
    lo ≤ (uniform lo hi r).1 ∧ (uniform lo hi r).1 < hi := by
  obtain ⟨h0, h1⟩ := hv r.k
  constructor
  · have : 0 ≤ r.stream r.k * (hi - lo) := by
      have := sub_pos.mpr hlt
      positivity
    simpa [uniform, RNG.next] using this
  · have h2 : r.stream r.k * (hi - lo) < 1 * (hi - lo) :=
      mul_lt_mul_of_pos_right h1 (sub_pos.mpr hlt)
    simp only [uniform, RNG.next]
    linarith

theorem uniform_stream (lo hi : ℚ) (r : RNG) :
    (uniform lo hi r).2.stream = r.stream := rfl

theorem uniformN_spec (lo hi : ℚ) (hlt : lo < hi) :
    ∀ (n : Nat) (r : RNG), ValidStream r.stream →
      (uniformN lo hi n r).1.length = n ∧
      (∀ x ∈ (uniformN lo hi n r).1, lo ≤ x ∧ x < hi) ∧
      (uniformN lo hi n r).2.stream = r.stream := by
  intro n
  induction n with
  | zero => intro r _; simp [uniformN]
  | succ n ih =>
      intro r hv
      have hx := uniform_mem hlt hv
      have hs : (uniform lo hi r).2.stream = r.stream := rfl
      have hv' : ValidStream (uniform lo hi r).2.stream := by rw [hs]; exact hv
      obtain ⟨hl, hm, hst⟩ := ih (uniform lo hi r).2 hv'
      refine ⟨by simp [uniformN, hl], ?_, by simpa [uniformN, hst] using hs⟩
      intro x hxm
      simp only [uniformN, List.mem_cons] at hxm
      rcases hxm with h | h
      · exact h ▸ hx
      · exact hm x h

theorem randint_ok {lo hi : ℤ} {r : RNG} {n : ℤ} {r' : RNG}
    (h : randint lo hi r = .ok (n, r')) (hv : ValidStream r.stream) :
    lo ≤ n ∧ n < hi ∧ r'.stream = r.stream := by
  unfold randint at h
  split at h
  case isTrue hlt =>
    obtain ⟨h0, h1⟩ := hv r.k
    simp only [RNG.next, Except.ok.injEq, Prod.mk.injEq] at h
    obtain ⟨hn, hr⟩ := h
    have hpos : (0 : ℚ) < (hi : ℚ) - (lo : ℚ) := by
      have hc : (lo : ℚ) < (hi : ℚ) := by exact_mod_cast hlt
      linarith
    have hf0 : (0 : ℤ) ≤ ⌊r.stream r.k * ((hi : ℚ) - (lo : ℚ))⌋ :=
      Int.floor_nonneg.mpr (by positivity)
    have hlt2 : r.stream r.k * ((hi : ℚ) - (lo : ℚ)) < ((hi - lo : ℤ) : ℚ) := by
      push_cast
      nlinarith
    have hf1 := Int.floor_lt.mpr hlt2
    subst hn
    refine ⟨by linarith, by omega, ?_⟩
    rw [← hr]
  case isFalse => exact absurd h (by simp)

theorem randint_err {lo hi : ℤ} (h : ¬ lo < hi) (r : RNG) :
    randint lo hi r = .error .numpyValueError := by
  unfold randint
  simp [h]

theorem listChoice_ok_mem {α : Type} {l : List α} {r : RNG} {a : α} {r' : RNG}
    (h : listChoice l r = .ok (a, r')) : a ∈ l := by
  unfold listChoice at h
  split at h
  · simp only [Except.ok.injEq, Prod.mk.injEq] at h
    rw [← h.1]
    exact List.get_mem _ _ _
  · exact absurd h (by simp)

theorem listChoice_ok_rng {α : Type} {l : List α} {r : RNG} {a : α} {r' : RNG}
    (h : listChoice l r = .ok (a, r')) : r' = (r.next).2 := by
  unfold listChoice at h
  split at h
  · simp only [RNG.next, Except.ok.injEq, Prod.mk.injEq] at h
    rw [← h.2]
    rfl
  · exact absurd h (by simp)

theorem listChoice_exists_ok {α : Type} {l : List α} (hne : l ≠ []) (r : RNG) :
    ∃ a, listChoice l r = .ok (a, (r.next).2) := by
  have hl : 0 < l.length := List.length_pos.mpr hne
  refine ⟨l.get ⟨(⌊(r.next).1 * (l.length : ℚ)⌋).toNat % l.length, Nat.mod_lt _ hl⟩, ?_⟩
  unfold listChoice
  rw [dif_pos hl]

theorem listChoiceN_ok {α : Type} {l : List α} :
    ∀ {n : Nat} {r : RNG} {as : List α} {r' : RNG},
      listChoiceN l n r = .ok (as, r') →
      as.length = n ∧ (∀ a ∈ as, a ∈ l) ∧ r'.stream = r.stream := by
  intro n
  induction n with
  | zero =>
      intro r as r' h
      simp only [listChoiceN, Except.ok.injEq, Prod.mk.injEq] at h
      obtain ⟨h1, h2⟩ := h
      subst h1; subst h2
      simp
  | succ n ih =>
      intro r as r' h
      simp only [listChoiceN, bind, Except.bind] at h
      cases hc : listChoice l r with
      | error e => rw [hc] at h; exact absurd h (by simp)
      | ok p =>
          obtain ⟨a, r1⟩ := p
          rw [hc] at h
          simp only at h
          cases hrec : listChoiceN l n r1 with
          | error e => rw [hrec] at h; exact absurd h (by simp)
          | ok q =>
              obtain ⟨as', r2⟩ := q
              rw [hrec] at h
              simp only [Except.ok.injEq, Prod.mk.injEq] at h
              obtain ⟨h1, h2⟩ := h
              subst h1; subst h2
              obtain ⟨hl, hm, hs⟩ := ih hrec
              have h1 : r1 = (r.next).2 := listChoice_ok_rng hc
              refine ⟨by simp [hl], ?_, ?_⟩
              · intro x hx
                rcases List.mem_cons.mp hx with h | h
                · exact h ▸ listChoice_ok_mem hc
                · exact hm x h
              · rw [hs, h1]; rfl

theorem listChoiceN_exists_ok {α : Type} {l : List α} (hne : l ≠ []) :
    ∀ (n : Nat) (r : RNG), ∃ as r', listChoiceN l n r = .ok (as, r') := by
  intro n
  induction n with
  | zero => intro r; exact ⟨[], r, rfl⟩
  | succ n ih =>
      intro r
      obtain ⟨a, ha⟩ := listChoice_exists_ok hne r
      obtain ⟨as, r', hrec⟩ := ih (r.next).2
      exact ⟨a :: as, r', by simp [listChoiceN, bind, Except.bind, ha, hrec]⟩

/-! ### Lemmas on the distinct-seed draw -/

theorem nthUnused_ge : ∀ (used : List Nat) (r : Nat), r ≤ nthUnused used r := by
  intro used
  induction used with
  | nil => intro r; simp [nthUnused]
  | cons u rest ih =>
      intro r
      unfold nthUnused
      split
      · exact le_trans (Nat.le_succ r) (ih (r + 1))
      · exact le_refl r

theorem nthUnused_le : ∀ (used : List Nat) (r : Nat),
    nthUnused used r ≤ r + used.length := by
  intro used
  induction used with
  | nil => intro r; simp [nthUnused]
  | cons u rest ih =>
      intro r
      unfold nthUnused
      split
      · have := ih (r + 1)
        simpa [Nat.add_comm, Nat.add_left_comm, Nat.add_assoc] using this
      · simp

theorem nthUnused_not_mem : ∀ (used : List Nat) (r : Nat),
    List.Sorted (· < ·) used → nthUnused used r ∉ used := by
  intro used
  induction used with
  | nil => intro r _; simp
  | cons u rest ih =>
      intro r hs
      rw [List.sorted_cons] at hs
      obtain ⟨hu, hrest⟩ := hs
      unfold nthUnused
      split
      case isTrue hle =>
        intro hmem
        rcases List.mem_cons.mp hmem with h | h
        · have := nthUnused_ge rest (r + 1)
          omega
        · exact ih (r + 1) hrest h
      case isFalse hgt =>
        intro hmem
        rcases List.mem_cons.mp hmem with h | h
        · omega
        · have := hu r h
          omega

theorem insertAsc_mem (a : Nat) : ∀ (l : List Nat) (x : Nat),
    x ∈ insertAsc a l ↔ x = a ∨ x ∈ l := by
  intro l
  induction l with
  | nil => intro x; simp [insertAsc]
  | cons b l ih =>
      intro x
      unfold insertAsc
      split
      · simp
      · simp only [List.mem_cons, ih x]
        tauto

theorem insertAsc_length (a : Nat) : ∀ (l : List Nat),
    (insertAsc a l).length = l.length + 1 := by
  intro l
  induction l with
  | nil => simp [insertAsc]
  | cons b l ih =>
      unfold insertAsc
      split
      · simp
      · simp [ih]

theorem insertAsc_sorted (a : Nat) : ∀ (l : List Nat),
    List.Sorted (· < ·) l → a ∉ l → List.Sorted (· < ·) (insertAsc a l) := by
  intro l
  induction l with
  | nil => intro _ _; simp [insertAsc]
  | cons b l ih =>
      intro hs hna
      rw [List.sorted_cons] at hs
      obtain ⟨hb, hl⟩ := hs
      have hab : a ≠ b := fun h => hna (h ▸ List.mem_cons_self b l)
      unfold insertAsc
      split
      case isTrue hle =>
        rw [List.sorted_cons]
        refine ⟨?_, List.sorted_cons.mpr ⟨hb, hl⟩⟩
        intro x hx
        rcases List.mem_cons.mp hx with h | h
        · omega
        · have := hb x h
          omega
      case isFalse hgt =>
        rw [List.sorted_cons]
        refine ⟨?_, ih hl (fun h => hna (List.mem_cons_of_mem b h))⟩
        intro x hx
        rcases (insertAsc_mem a l x).mp hx with h | h
        · omega
        · exact hb x h

theorem drawSeeds_spec (u : Nat) (entropy : Nat → Nat) :
    ∀ (n i : Nat) (used : List Nat),
      List.Sorted (· < ·) used → used.length + n ≤ u →
      (drawSeeds u entropy n i used).length = n ∧
      (drawSeeds u entropy n i used).Nodup ∧
      (∀ s ∈ drawSeeds u entropy n i used, s < u ∧ s ∉ used) := by
  intro n
  induction n with
  | zero => intro i used _ _; simp [drawSeeds]
  | succ n ih =>
      intro i used hs hlen
      have hpos : 0 < u - used.length := by omega
      have hr : entropy i % (u - used.length) < u - used.length :=
        Nat.mod_lt _ hpos
      set s := nthUnused used (entropy i % (u - used.length)) with hsdef
      have hsu : s < u := by
        have := nthUnused_le used (entropy i % (u - used.length))
        omega
      have hsnm : s ∉ used := nthUnused_not_mem used _ hs
      have hs' : List.Sorted (· < ·) (insertAsc s used) :=
        insertAsc_sorted s used hs hsnm
      have hlen' : (insertAsc s used).length + n ≤ u := by
        rw [insertAsc_length]
        omega
      obtain ⟨ihl, ihn, ihm⟩ := ih (i + 1) (insertAsc s used) hs' hlen'
      refine ⟨?_, ?_, ?_⟩
      · simp [drawSeeds, ihl]
      · rw [drawSeeds, List.nodup_cons]
        refine ⟨?_, ihn⟩
        intro hmem
        have := (ihm s hmem).2
        exact this ((insertAsc_mem s used s).mpr (Or.inl rfl))
      · intro x hx
        rw [drawSeeds, List.mem_cons] at hx
        rcases hx with h | h
        · exact h ▸ ⟨hsu, hsnm⟩
        · obtain ⟨hxu, hxm⟩ := ihm x h
          exact ⟨hxu, fun hc => hxm ((insertAsc_mem s used x).mpr (Or.inr hc))⟩

/-! ### External environment

Process-wide constants and registries consulted by `latent_dataset`:
the float constants and trig functions of numpy (idealised over `ℚ`), the
scanned-object identifier list `GSO_IDS = get_gso_ids()` (loaded once from an
external manifest at module import), the key list of `HDRI_haven.json`
(read by `get_hdri_id`), and the per-seed unit-draw streams realising
`np.random.RandomState(seed)`. -/
structure Env where
  rand : Nat → Nat → ℚ
  pi : ℚ
  cosF : ℚ → ℚ
  sinF : ℚ → ℚ
  gsoIds : List String
  hdriIds : List String

/-- `np.random.RandomState(seed)`: the stream determined by the seed alone. -/
def initRNG (env : Env) (seed : Nat) : RNG :=
  ⟨env.rand seed, 0⟩

/-- Every per-seed stream produces unit draws in `[0,1)`. -/
def ValidRand (env : Env) : Prop :=
  ∀ seed, ValidStream (env.rand seed)

/-- dataset.py lines 12-23: the fixed basic-shape catalog. -/
def KUBASIC_IDS : List String :=
  ["cube", "cylinder", "sphere", "cone", "torus", "gear",
   "torus_knot", "sponge", "spot", "suzanne"]

/-- dataset.py lines 27-38: the procedural texture palette; the IMAGE entry
is commented out in the source. -/
def TEXTURES : List String :=
  ["NONE", "CLOUDS", "DISTORTED_NOISE", "MAGIC", "MARBLE", "MUSGRAVE",
   "STUCCI", "VORONOI", "WOOD"]

/-- The photographic texture kind (only used for realistic backgrounds). -/
def imageKind : String := "IMAGE"

/-- The texture kind with no procedural parameters. -/
def noneKind : String := "NONE"

/-- Modelled from the spec: the record returned by `get_material`
(`src/renderstim/latents/materials.py` is not in the source tree).  §4.5:
base color as RGB in `[0,1]³`, roughness in `[0,1]`, metallic in `[0,1]`. -/
structure Material where
  base_color : ℚ × ℚ × ℚ
  roughness : ℚ
  metallic : ℚ
deriving Repr, DecidableEq

/-- Modelled from the spec: `get_material(rng)` (§4.5), a pure function of the
stream's next draws; here five unit draws in source order. -/
def get_material (r : RNG) : Material × RNG :=
  let (cr, r1) := r.next
  let (cg, r2) := r1.next
  let (cb, r3) := r2.next
  let (ro, r4) := r3.next
  let (me, r5) := r4.next
  ({ base_color := (cr, cg, cb), roughness := ro, metallic := me }, r5)

/-- Modelled from the spec: the record returned by `get_texture`
(`textures.py` is not in the source tree).  §4.6: `{kind, kind-specific
numeric parameters}`. -/
structure Texture where
  kind : String
  params : List ℚ
deriving Repr, DecidableEq

/-- Modelled from the spec: `get_texture(kind, rng, is_background)` (§4.6).
The `NONE` kind has no procedural parameters; every other kind draws its
scale/distortion parameters, with a larger tiling scale in background mode.
The exact parameter ranges are a palette design choice (§4.6); what matters
is that the returned record carries the requested kind. -/
def get_texture (kind : String) (r : RNG) (isBackground : Bool) : Texture × RNG :=
  if kind = noneKind then ({ kind := kind, params := [] }, r)
  else
    let (p1, r1) := r.next
    let (p2, r2) := r1.next
    ({ kind := kind, params := [if isBackground then 2 * p1 else p1, p2] }, r2)

/-- Modelled from the spec: `get_quaternion(axis, angle)` (`utils.py` is not
in the source tree).  §4.3 step 7: `(cos(angle/2), axis-component ×
sin(angle/2) on the chosen axis, 0 elsewhere)`; `cosF`/`sinF` stand for the
numpy trigonometric functions. -/
def get_quaternion (env : Env) (axis : String) (angle : ℚ) : ℚ × ℚ × ℚ × ℚ :=
  let c := env.cosF (angle / 2)
  let s := env.sinF (angle / 2)
  (c, if axis = "x" then s else 0, if axis = "y" then s else 0,
   if axis = "z" then s else 0)

/-- src/renderstim/latents/hdri.py: load the HDRI manifest's asset keys and
pick one with the caller-supplied stream. -/
def get_hdri_id (env : Env) (r : RNG) : Except Err (String × RNG) :=
  listChoice env.hdriIds r

/-- The keyword arguments of `latent_dataset` (dataset.py lines 41-62). -/
structure Params where
  num_scenes : Nat
  resolution : List ℤ
  min_num_objects : ℤ
  max_num_objects : ℤ
  spawn_region : List (List ℚ)
  lighting : String
  sun_position : List ℚ
  hdri_world : Bool
  camera_position : List ℚ
  camera_look_at : List ℚ
  camera_focal_length : ℚ
  camera_sensor_width : ℚ
  floor_scale : List ℚ
  floor_position : List ℚ
  floor_friction : ℚ
  floor_restitution : ℚ
  background_type : String
  asset_source : String
  velocity_range : List (ℚ × ℚ × ℚ)
  dataset_comment : String

/-- One scene's `latents` dictionary.  A field of `Option` type models a
dictionary key that is only present in some branches (`none` = key absent
for `bg_material`, `floor_position`, `bg_texture`; for `hdri_id`,
`sun_position` and `ambient_illumination` the key is always present and
`none` models Python `None`). -/
structure Scene where
  seed : Nat
  resolution : List ℤ
  spawn_region : List (List ℚ)
  hdri_world : Bool
  hdri_id : Option String
  bg_material : Option Material
  floor_position : Option (List ℚ)
  bg_texture : Option Texture
  sun_position : Option (List ℚ)
  ambient_illumination : Option ℚ
  lighting : String
  camera_position : List ℚ
  camera_look_at : List ℚ
  camera_focal_length : ℚ
  camera_sensor_width : ℚ
  floor_scale : List ℚ
  floor_friction : ℚ
  floor_restitution : ℚ
  velocity_range : List (ℚ × ℚ × ℚ)
  num_objects : ℤ
  asset_source : String
  object_shapes : List String
  object_scales : List ℚ
  object_angles_of_rotation : List ℚ
  object_axes_of_rotation : List String
  object_quaternions : List (ℚ × ℚ × ℚ × ℚ)
  object_textures : List Texture
  object_materials : List Material
deriving Repr, DecidableEq

/-- The background-dependent part of a scene (dataset.py lines 166-194). -/
structure BgPart where
  hdri_id : Option String
  bg_material : Option Material
  floor_position : Option (List ℚ)
  bg_texture : Option Texture

/-- The lighting-dependent part of a scene (dataset.py lines 197-220). -/
structure LightPart where
  sun_position : Option (List ℚ)
  ambient_illumination : Option ℚ

/-- The per-object part of a scene (dataset.py lines 247-290). -/
structure ObjPart where
  num_objects : ℤ
  object_shapes : List String
  object_scales : List ℚ
  object_angles_of_rotation : List ℚ
  object_axes_of_rotation : List String
  object_quaternions : List (ℚ × ℚ × ℚ × ℚ)
  object_textures : List Texture
  object_materials : List Material

/-- dataset.py line 100: cause attached to the resolution-length error. -/
def msgResolution : String := "resolution should be a list of ints of length=2"

/-- dataset.py line 105: cause for a spawn region without two corner points. -/
def msgSpawnOuter : String := "spawn region should be a list of lists of length 3"

/-- dataset.py line 111: cause for a corner point of the wrong length. -/
def msgSpawnInner : String := "spawn region should be a list of 2 lists of length 3"

/-- dataset.py line 116: cause for a malformed sun position. -/
def msgSunPosition : String := "sun position should be a list of length 3"

/-- dataset.py line 121: cause for a malformed camera position. -/
def msgCameraPosition : String := "camera position should be a list of length 3"

/-- dataset.py line 126: cause for a malformed camera look-at point. -/
def msgCameraLookAt : String := "camera look at should be a list of length 3"

/-- dataset.py line 131: cause for a malformed floor scale. -/
def msgFloorScale : String := "floor scale should be a list of length 3"

/-- dataset.py line 136: cause for a malformed floor position. -/
def msgFloorPosition : String := "floor position should be a list of length 3"

/-- dataset.py line 141: cause for an out-of-range floor friction. -/
def msgFloorFriction : String :=
  "floor friction value should be a floating point number between 0.0 and 1.0"

/-- dataset.py line 146: cause for an out-of-range floor restitution. -/
def msgFloorRestitution : String :=
  "floor restitution value should be a floating point number between 0.0 and 1.0"

/-- dataset.py line 193: cause for an unrecognized background type. -/
def msgBackgroundType : String :=
  "Invalid background type: background_type can be either 'artificial' or 'realistic'"

/-- dataset.py line 219: cause for an unrecognized lighting mode. -/
def msgLighting : String :=
  "Invalid lighting type: lighting can be either 'sun' or 'ambient_hdri'"

/-- dataset.py line 263: cause for an unrecognized asset source. -/
def msgAssetSource : String :=
  "Invalid asset source type: asset sources either be 'kubasic' or 'GSO'"

/-- dataset.py lines 166-194: world-model branch.  `hdri_world` samples one
HDRI id; otherwise the background material, the floor position and a
background texture are set, the texture palette depending on
`background_type`. -/
def sampleBackground (env : Env) (p : Params) (r : RNG) :
    Except Err (BgPart × RNG) :=
  if p.hdri_world then do
    let (hid, r1) ← get_hdri_id env r
    .ok ({ hdri_id := some hid, bg_material := none, floor_position := none,
           bg_texture := none }, r1)
  else
    let (mat, r1) := get_material r
    if p.background_type = "artificial" then do
      let (kind, r2) ← listChoice TEXTURES r1
      let (tex, r3) := get_texture kind r2 true
      .ok ({ hdri_id := none, bg_material := some mat,
             floor_position := some p.floor_position, bg_texture := some tex },
           r3)
    else if p.background_type = "realistic" then
      let (tex, r2) := get_texture imageKind r1 true
      .ok ({ hdri_id := none, bg_material := some mat,
             floor_position := some p.floor_position, bg_texture := some tex },
           r2)
    else .error (.invalidParameter msgBackgroundType)

/-- dataset.py lines 197-220: lighting branch.  In sun mode the input
sun position's x and y entries are overwritten with fresh uniform draws in
`[-1,1]` (z unchanged) and the ambient illumination is drawn from
`[0.4, 0.7)`. -/
def sampleLighting (p : Params) (r : RNG) : Except Err (LightPart × RNG) :=
  if p.lighting = "sun" then
    let (sx, r1) := uniform (-1) 1 r
    let (sy, r2) := uniform (-1) 1 r1
    let (amb, r3) := uniform (2/5) (7/10) r2
    .ok ({ sun_position := some ((p.sun_position.set 0 sx).set 1 sy),
           ambient_illumination := some amb }, r3)
  else if p.lighting = "ambient_hdri" then
    .ok ({ sun_position := none, ambient_illumination := none }, r)
  else .error (.invalidParameter msgLighting)

/-- dataset.py lines 281-287: one per-object texture is a palette choice
followed by `get_texture(kind, rng, False)`, repeated `num_objects` times. -/
def sampleTextures : Nat → RNG → Except Err (List Texture × RNG)
  | 0, r => .ok ([], r)
  | n + 1, r => do
      let (kind, r1) ← listChoice TEXTURES r
      let (t, r2) := get_texture kind r1 false
      let (ts, r3) ← sampleTextures n r2
      .ok (t :: ts, r3)

/-- dataset.py line 290: one material per object. -/
def sampleMaterials : Nat → RNG → List Material × RNG
  | 0, r => ([], r)
  | n + 1, r =>
      let (m, r1) := get_material r
      let (ms, r2) := sampleMaterials n r1
      (m :: ms, r2)

/-- dataset.py lines 253-264: the asset-source branch drawing `num_objects`
shape identifiers (with replacement) and scales.  The negative-size numpy
error sits inside the recognised asset-source branches, as in the source,
where the first `rng.choice(..., size=n)` call would raise. -/
def sampleShapesScales (env : Env) (p : Params) (n : ℤ) (r1 : RNG) :
    Except Err (List String × List ℚ × RNG) :=
  if p.asset_source = "kubasic" then
    if n < 0 then .error .numpyValueError
    else do
      let (sh, ra) ← listChoiceN KUBASIC_IDS n.toNat r1
      let (sc, rb) := uniformN (3/5) (6/5) n.toNat ra
      .ok (sh, sc, rb)
  else if p.asset_source = "GSO" then
    if n < 0 then .error .numpyValueError
    else do
      let (sh, ra) ← listChoiceN env.gsoIds n.toNat r1
      let (sc, rb) := uniformN 6 10 n.toNat ra
      .ok (sh, sc, rb)
  else .error (.invalidParameter msgAssetSource)

/-- dataset.py lines 247-290: object count, shapes/scales by asset source,
rotation angles and axes, derived quaternions, textures and materials. -/
def sampleObjects (env : Env) (p : Params) (r : RNG) :
    Except Err (ObjPart × RNG) := do
  let (n, r1) ← randint p.min_num_objects (p.max_num_objects + 1) r
  let (shapes, scales, r2) ← sampleShapesScales env p n r1
  let (angles, r3) := uniformN 0 (2 * env.pi) n.toNat r2
  let (axes, r4) ← listChoiceN ["x", "y", "z"] n.toNat r3
  let quats := List.zipWith (fun ax an => get_quaternion env ax an) axes angles
  let (texs, r5) ← sampleTextures n.toNat r4
  let (mats, r6) := sampleMaterials n.toNat r5
  .ok ({ num_objects := n, object_shapes := shapes, object_scales := scales,
         object_angles_of_rotation := angles, object_axes_of_rotation := axes,
         object_quaternions := quats, object_textures := texs,
         object_materials := mats }, r6)

/-- dataset.py lines 154-293: the per-scene sampler.  A fresh stream is
seeded from the scene's seed; the three random stages run in source order;
the remaining fields are copied from the parameters.  `sun_position` here
holds the values as written during this iteration (the cross-scene aliasing
of the shared list is applied at the dataset level). -/
def sampleScene (env : Env) (p : Params) (seed : Nat) : Except Err Scene := do
  let r0 := initRNG env seed
  let (bg, r1) ← sampleBackground env p r0
  let (li, r2) ← sampleLighting p r1
  let (ob, _) ← sampleObjects env p r2
  .ok { seed := seed,
        resolution := p.resolution,
        spawn_region := p.spawn_region,
        hdri_world := p.hdri_world,
        hdri_id := bg.hdri_id,
        bg_material := bg.bg_material,
        floor_position := bg.floor_position,
        bg_texture := bg.bg_texture,
        sun_position := li.sun_position,
        ambient_illumination := li.ambient_illumination,
        lighting := p.lighting,
        camera_position := p.camera_position,
        camera_look_at := p.camera_look_at,
        camera_focal_length := p.camera_focal_length,
        camera_sensor_width := p.camera_sensor_width,
        floor_scale := p.floor_scale,
        floor_friction := p.floor_friction,
        floor_restitution := p.floor_restitution,
        velocity_range := p.velocity_range,
        num_objects := ob.num_objects,
        asset_source := p.asset_source,
        object_shapes := ob.object_shapes,
        object_scales := ob.object_scales,
        object_angles_of_rotation := ob.object_angles_of_rotation,
        object_axes_of_rotation := ob.object_axes_of_rotation,
        object_quaternions := ob.object_quaternions,
        object_textures := ob.object_textures,
        object_materials := ob.object_materials }

/-- dataset.py lines 98-147: the validation block, in source order.  Each
failing check raises `ValueError` with a human-readable cause
(`InvalidParameterError` in the spec's taxonomy). -/
def validateParams (p : Params) : Except Err Unit :=
  if p.resolution.length ≠ 2 then .error (.invalidParameter msgResolution)
  else if p.spawn_region.length ≠ 2 then .error (.invalidParameter msgSpawnOuter)
  else if ∃ sr ∈ p.spawn_region, sr.length ≠ 3 then
    .error (.invalidParameter msgSpawnInner)
  else if p.sun_position.length ≠ 3 then .error (.invalidParameter msgSunPosition)
  else if p.camera_position.length ≠ 3 then
    .error (.invalidParameter msgCameraPosition)
  else if p.camera_look_at.length ≠ 3 then
    .error (.invalidParameter msgCameraLookAt)
  else if p.floor_scale.length ≠ 3 then .error (.invalidParameter msgFloorScale)
  else if p.floor_position.length ≠ 3 then
    .error (.invalidParameter msgFloorPosition)
  else if p.floor_friction > 1 ∨ p.floor_friction < 0 then
    .error (.invalidParameter msgFloorFriction)
  else if p.floor_restitution > 1 ∨ p.floor_restitution < 0 then
    .error (.invalidParameter msgFloorRestitution)
  else .ok ()

/-- dataset.py lines 154-293: the `for seed in seeds` loop, collecting one
scene per seed and aborting the whole call on the first error. -/
def sampleScenes (env : Env) (p : Params) : List Nat → Except Err (List Scene)
  | [] => .ok []
  | s :: rest => do
      let sc ← sampleScene env p s
      let scs ← sampleScenes env p rest
      .ok (sc :: scs)

/-- dataset.py lines 199-201: `latents["sun_position"] = sun_position`
stores a reference to the one input list, whose entries 0 and 1 are then
overwritten in place on every iteration.  All sun-lit scenes therefore share
a single list and, once the loop has finished, reading any of them yields
the values written by the last iteration.  This definition applies that
final heap state to the collected scenes. -/
def shareSunPosition (scenes : List Scene) : List Scene :=
  match (scenes.getLast?).bind Scene.sun_position with
  | none => scenes
  | some v =>
      scenes.map fun s =>
        match s.sun_position with
        | none => s
        | some _ => { s with sun_position := some v }

/-- The population for the top-level seed draw (dataset.py line 151). -/
def seedUpperBound : Nat := 2147483647

/-- dataset.py lines 41-295: `latent_dataset`.  Validation first, then the
unseeded distinct-seed draw (`entropy` standing for the OS-entropy-seeded
`default_rng`), then one scene per seed, then the observable effect of the
shared mutable `sun_position` list. -/
def latent_dataset (env : Env) (p : Params) (entropy : Nat → Nat) :
    Except Err (List Scene) := do
  let _ ← validateParams p
  if p.num_scenes > seedUpperBound then .error .seedExhaustion
  else
    let seeds := drawSeeds seedUpperBound entropy p.num_scenes 0 []
    let scenes ← sampleScenes env p seeds
    .ok (shareSunPosition scenes)

/-! ### Generic helpers for `Except` -/

instance {α : Type} [DecidableEq α] : DecidableEq (Except Err α) := fun a b =>
  match a, b with
  | .ok x, .ok y =>
      if h : x = y then .isTrue (by rw [h]) else .isFalse (by simp [h])
  | .error e, .error f =>
      if h : e = f then .isTrue (by rw [h]) else .isFalse (by simp [h])
  | .ok _, .error _ => .isFalse (by simp)
  | .error _, .ok _ => .isFalse (by simp)

/-- Whether an `Except` computation succeeded. -/
def exceptIsOk {α : Type} : Except Err α → Bool
  | .ok _ => true
  | .error _ => false

theorem exists_ok_of_isOk {α : Type} (x : Except Err α)
    (h : exceptIsOk x = true) : ∃ a, x = .ok a := by
  cases x with
  | ok a => exact ⟨a, rfl⟩
  | error e => exact absurd h (by simp [exceptIsOk])

theorem except_bind_ok {α β : Type} {x : Except Err α} {f : α → Except Err β}
    {b : β} (h : x >>= f = .ok b) : ∃ a, x = .ok a ∧ f a = .ok b := by
  cases x with
  | ok a => exact ⟨a, rfl, h⟩
  | error e => exact absurd h (by simp [Bind.bind, Except.bind])

/-! ### Stage lemmas for the per-scene sampler -/

theorem get_material_stream (r : RNG) : (get_material r).2.stream = r.stream := rfl

theorem get_texture_stream (kind : String) (r : RNG) (b : Bool) :
    (get_texture kind r b).2.stream = r.stream := by
  unfold get_texture
  split <;> rfl

theorem get_texture_kind (kind : String) (r : RNG) (b : Bool) :
    (get_texture kind r b).1.kind = kind := by
  unfold get_texture
  split <;> rfl

theorem sampleTextures_ok :
    ∀ {n : Nat} {r : RNG} {ts : List Texture} {r' : RNG},
      sampleTextures n r = .ok (ts, r') →
      ts.length = n ∧ (∀ t ∈ ts, t.kind ∈ TEXTURES) ∧ r'.stream = r.stream := by
  intro n
  induction n with
  | zero =>
      intro r ts r' h
      simp only [sampleTextures, Except.ok.injEq, Prod.mk.injEq] at h
      obtain ⟨h1, h2⟩ := h
      subst h1; subst h2
      simp
  | succ n ih =>
      intro r ts r' h
      unfold sampleTextures at h
      obtain ⟨⟨kind, r1⟩, hc, h⟩ := except_bind_ok h
      dsimp only at h
      rcases hgt : get_texture kind r1 false with ⟨t, r2⟩
      rw [hgt] at h
      dsimp only at h
      obtain ⟨⟨ts', r3⟩, hrec, h⟩ := except_bind_ok h
      simp only [Except.ok.injEq, Prod.mk.injEq] at h
      obtain ⟨h1, h2⟩ := h
      subst h1; subst h2
      obtain ⟨hl, hm, hs⟩ := ih hrec
      have hr1 : r1 = (r.next).2 := listChoice_ok_rng hc
      have hkind : t.kind = kind := by
        have := get_texture_kind kind r1 false
        rw [hgt] at this
        exact this
      have hst : r2.stream = r1.stream := by
        have := get_texture_stream kind r1 false
        rw [hgt] at this
        exact this
      refine ⟨by simp [hl], ?_, ?_⟩
      · intro x hx
        rcases List.mem_cons.mp hx with h | h
        · rw [h, hkind]
          exact listChoice_ok_mem hc
        · exact hm x h
      · rw [hs, hst, hr1]
        rfl

theorem sampleMaterials_spec :
    ∀ (n : Nat) (r : RNG), (sampleMaterials n r).1.length = n := by
  intro n
  induction n with
  | zero => intro r; rfl
  | succ n ih =>
      intro r
      simp [sampleMaterials, ih]

theorem sampleBackground_ok {env : Env} {p : Params} {r : RNG} {bg : BgPart}
    {r' : RNG} (h : sampleBackground env p r = .ok (bg, r')) :
    r'.stream = r.stream ∧
    (p.hdri_world = true →
      (∃ hid, hid ∈ env.hdriIds ∧ bg.hdri_id = some hid) ∧
      bg.bg_material = none ∧ bg.floor_position = none ∧ bg.bg_texture = none) ∧
    (p.hdri_world = false →
      bg.hdri_id = none ∧ (∃ m, bg.bg_material = some m) ∧
      bg.floor_position = some p.floor_position ∧
      (∃ t, bg.bg_texture = some t)) := by
  unfold sampleBackground at h
  split at h
  case isTrue hw =>
    obtain ⟨⟨hid, r1⟩, hc, h⟩ := except_bind_ok h
    dsimp only at h
    simp only [Except.ok.injEq, Prod.mk.injEq] at h
    obtain ⟨h1, h2⟩ := h
    subst h1; subst h2
    refine ⟨?_, ?_, ?_⟩
    · rw [listChoice_ok_rng hc]
      rfl
    · intro _
      exact ⟨⟨hid, listChoice_ok_mem hc, rfl⟩, rfl, rfl, rfl⟩
    · intro hfalse
      rw [hw] at hfalse
      exact absurd hfalse (by simp)
  case isFalse hw =>
    have hwf : p.hdri_world = false := by
      cases hb : p.hdri_world
      · rfl
      · exact absurd hb hw
    rcases hgm : get_material r with ⟨mat, r1⟩
    rw [hgm] at h
    dsimp only at h
    have hr1 : r1.stream = r.stream := by
      have := get_material_stream r
      rw [hgm] at this
      exact this
    split at h
    · obtain ⟨⟨kind, r2⟩, hc, h⟩ := except_bind_ok h
      dsimp only at h
      rcases hgt : get_texture kind r2 true with ⟨tex, r3⟩
      rw [hgt] at h
      dsimp only at h
      simp only [Except.ok.injEq, Prod.mk.injEq] at h
      obtain ⟨h1, h2⟩ := h
      subst h1; subst h2
      have hst : r3.stream = r2.stream := by
        have := get_texture_stream kind r2 true
        rw [hgt] at this
        exact this
      refine ⟨?_, ?_, ?_⟩
      · rw [hst, listChoice_ok_rng hc, RNG.next_stream, hr1]
      · intro htrue
        rw [hwf] at htrue
        exact absurd htrue (by simp)
      · intro _
        exact ⟨rfl, ⟨mat, rfl⟩, rfl, ⟨tex, rfl⟩⟩
    · split at h
      · rcases hgt : get_texture imageKind r1 true with ⟨tex, r2⟩
        rw [hgt] at h
        dsimp only at h
        simp only [Except.ok.injEq, Prod.mk.injEq] at h
        obtain ⟨h1, h2⟩ := h
        subst h1; subst h2
        have hst : r2.stream = r1.stream := by
          have := get_texture_stream imageKind r1 true
          rw [hgt] at this
          exact this
        refine ⟨by rw [hst, hr1], ?_, ?_⟩
        · intro htrue
          rw [hwf] at htrue
          exact absurd htrue (by simp)
        · intro _
          exact ⟨rfl, ⟨mat, rfl⟩, rfl, ⟨tex, rfl⟩⟩
      · exact absurd h (by simp)

theorem sampleLighting_ok {p : Params} {r : RNG} {li : LightPart} {r' : RNG}
    (h : sampleLighting p r = .ok (li, r')) (hv : ValidStream r.stream) :
    r'.stream = r.stream ∧
    (p.lighting = "sun" ∨ p.lighting = "ambient_hdri") ∧
    (p.lighting = "sun" →
      (∃ sp, li.sun_position = some sp) ∧
      (∃ a, li.ambient_illumination = some a ∧ 2/5 ≤ a ∧ a < 7/10)) ∧
    (p.lighting = "ambient_hdri" →
      li.sun_position = none ∧ li.ambient_illumination = none) := by
  unfold sampleLighting at h
  split at h
  case isTrue hsun =>
    simp only [Except.ok.injEq, Prod.mk.injEq] at h
    obtain ⟨h1, h2⟩ := h
    subst h1; subst h2
    have hv2 : ValidStream (uniform (-1) 1 (uniform (-1) 1 r).2).2.stream := hv
    have hamb := uniform_mem (show (2:ℚ)/5 < 7/10 by norm_num) hv2
    refine ⟨rfl, Or.inl hsun, ?_, ?_⟩
    · intro _
      exact ⟨⟨_, rfl⟩, ⟨_, rfl, hamb.1, hamb.2⟩⟩
    · intro hamb'
      rw [hsun] at hamb'
      exact absurd hamb' (by simp)
  case isFalse hnsun =>
    split at h
    case isTrue hambm =>
      simp only [Except.ok.injEq, Prod.mk.injEq] at h
      obtain ⟨h1, h2⟩ := h
      subst h1; subst h2
      refine ⟨rfl, Or.inr hambm, ?_, ?_⟩
      · intro hsun
        exact absurd hsun hnsun
      · intro _
        exact ⟨rfl, rfl⟩
    case isFalse => exact absurd h (by simp)

theorem sampleShapesScales_ok {env : Env} {p : Params} {n : ℤ} {r1 : RNG}
    {shapes : List String} {scales : List ℚ} {r2 : RNG}
    (hbr : sampleShapesScales env p n r1 = .ok (shapes, scales, r2))
    (hv1 : ValidStream r1.stream) :
    (0 ≤ n) ∧ (p.asset_source = "kubasic" ∨ p.asset_source = "GSO") ∧
    shapes.length = n.toNat ∧ scales.length = n.toNat ∧
    r2.stream = r1.stream ∧
    (p.asset_source = "kubasic" →
      (∀ x ∈ scales, 3/5 ≤ x ∧ x < 6/5) ∧ ∀ sh ∈ shapes, sh ∈ KUBASIC_IDS) ∧
    (p.asset_source = "GSO" →
      (∀ x ∈ scales, 6 ≤ x ∧ x < 10) ∧ ∀ sh ∈ shapes, sh ∈ env.gsoIds) := by
  unfold sampleShapesScales at hbr
  split at hbr
  case isTrue hks =>
    split at hbr
    case isTrue => exact absurd hbr (by simp)
    case isFalse hn0 =>
      obtain ⟨⟨sh, ra⟩, hsh, hbr⟩ := except_bind_ok hbr
      dsimp only at hbr
      rcases hsc : uniformN (3/5) (6/5) n.toNat ra with ⟨sc, rb⟩
      rw [hsc] at hbr
      dsimp only at hbr
      simp only [Except.ok.injEq, Prod.mk.injEq] at hbr
      obtain ⟨hbr1, hbr2, hbr3⟩ := hbr
      subst hbr1; subst hbr2; subst hbr3
      obtain ⟨hshl, hshm, hshs⟩ := listChoiceN_ok hsh
      have hva : ValidStream ra.stream := by rw [hshs]; exact hv1
      have husp := uniformN_spec (3/5) (6/5) (by norm_num) n.toNat ra hva
      rw [hsc] at husp
      refine ⟨by omega, Or.inl hks, hshl, husp.1, ?_, ?_, ?_⟩
      · rw [husp.2.2, hshs]
      · intro _
        exact ⟨husp.2.1, hshm⟩
      · intro hgso
        rw [hks] at hgso
        exact absurd hgso (by simp)
  case isFalse hks =>
    split at hbr
    case isTrue hgs =>
      split at hbr
      case isTrue => exact absurd hbr (by simp)
      case isFalse hn0 =>
        obtain ⟨⟨sh, ra⟩, hsh, hbr⟩ := except_bind_ok hbr
        dsimp only at hbr
        rcases hsc : uniformN 6 10 n.toNat ra with ⟨sc, rb⟩
        rw [hsc] at hbr
        dsimp only at hbr
        simp only [Except.ok.injEq, Prod.mk.injEq] at hbr
        obtain ⟨hbr1, hbr2, hbr3⟩ := hbr
        subst hbr1; subst hbr2; subst hbr3
        obtain ⟨hshl, hshm, hshs⟩ := listChoiceN_ok hsh
        have hva : ValidStream ra.stream := by rw [hshs]; exact hv1
        have husp := uniformN_spec 6 10 (by norm_num) n.toNat ra hva
        rw [hsc] at husp
        refine ⟨by omega, Or.inr hgs, hshl, husp.1, ?_, ?_, ?_⟩
        · rw [husp.2.2, hshs]
        · intro hkb
          exact absurd hkb hks
        · intro _
          exact ⟨husp.2.1, hshm⟩
    case isFalse => exact absurd hbr (by simp)

theorem sampleObjects_ok {env : Env} {p : Params} {r : RNG} {ob : ObjPart}
    {r' : RNG} (h : sampleObjects env p r = .ok (ob, r'))
    (hv : ValidStream r.stream) (hpi : 0 < env.pi) :
    p.min_num_objects ≤ ob.num_objects ∧ ob.num_objects ≤ p.max_num_objects ∧
    0 ≤ ob.num_objects ∧
    (p.asset_source = "kubasic" ∨ p.asset_source = "GSO") ∧
    ob.object_shapes.length = ob.num_objects.toNat ∧
    ob.object_scales.length = ob.num_objects.toNat ∧
    ob.object_angles_of_rotation.length = ob.num_objects.toNat ∧
    ob.object_axes_of_rotation.length = ob.num_objects.toNat ∧
    ob.object_quaternions.length = ob.num_objects.toNat ∧
    ob.object_textures.length = ob.num_objects.toNat ∧
    ob.object_materials.length = ob.num_objects.toNat ∧
    (∀ a ∈ ob.object_angles_of_rotation, 0 ≤ a ∧ a < 2 * env.pi) ∧
    (∀ ax ∈ ob.object_axes_of_rotation, ax = "x" ∨ ax = "y" ∨ ax = "z") ∧
    (p.asset_source = "kubasic" →
      (∀ x ∈ ob.object_scales, 3/5 ≤ x ∧ x < 6/5) ∧
      ∀ sh ∈ ob.object_shapes, sh ∈ KUBASIC_IDS) ∧
    (p.asset_source = "GSO" →
      (∀ x ∈ ob.object_scales, 6 ≤ x ∧ x < 10) ∧
      ∀ sh ∈ ob.object_shapes, sh ∈ env.gsoIds) ∧
    (∀ t ∈ ob.object_textures, t.kind ∈ TEXTURES) := by
  unfold sampleObjects at h
  obtain ⟨⟨n, r1⟩, hrand, h⟩ := except_bind_ok h
  dsimp only at h
  obtain ⟨⟨shapes, scales, r2⟩, hbr, h⟩ := except_bind_ok h
  dsimp only at h
  rcases hun : uniformN 0 (2 * env.pi) n.toNat r2 with ⟨angles, r3⟩
  rw [hun] at h
  dsimp only at h
  obtain ⟨⟨axes, r4⟩, hax, h⟩ := except_bind_ok h
  dsimp only at h
  obtain ⟨⟨texs, r5⟩, htex, h⟩ := except_bind_ok h
  dsimp only at h
  rcases hmat : sampleMaterials n.toNat r5 with ⟨mats, r6⟩
  rw [hmat] at h
  dsimp only at h
  simp only [Except.ok.injEq, Prod.mk.injEq] at h
  obtain ⟨h1, h2⟩ := h
  subst h1; subst h2
  obtain ⟨hmin, hmax, hr1⟩ := randint_ok hrand hv
  have hv1 : ValidStream r1.stream := by rw [hr1]; exact hv
  obtain ⟨hn0, hsrc, hshl, hscl, hr2, hkb, hgs⟩ :=
    sampleShapesScales_ok hbr hv1
  have hv2 : ValidStream r2.stream := by rw [hr2]; exact hv1
  have hang := uniformN_spec 0 (2 * env.pi) (by linarith) n.toNat r2 hv2
  rw [hun] at hang
  obtain ⟨haxl, haxm, haxs⟩ := listChoiceN_ok hax
  obtain ⟨htexl, htexm, _⟩ := sampleTextures_ok htex
  have hmatl : mats.length = n.toNat := by
    have := sampleMaterials_spec n.toNat r5
    rw [hmat] at this
    exact this
  dsimp only
  refine ⟨hmin, by omega, hn0, hsrc, hshl, hscl, hang.1, haxl, ?_, htexl,
          hmatl, hang.2.1, ?_, hkb, hgs, htexm⟩
  · simp only [List.length_zipWith, haxl, hang.1]
    exact Nat.min_self _
  · intro ax hmem
    have := haxm ax hmem
    simpa using this

/-- Inversion of the per-scene sampler: a successful run decomposes into the
three random stages, and the returned record assembles their parts with the
copied parameter fields. -/
theorem sampleScene_ok {env : Env} {p : Params} {seed : Nat} {s : Scene}
    (h : sampleScene env p seed = .ok s) :
    ∃ bg r1 li r2 ob r3,
      sampleBackground env p (initRNG env seed) = .ok (bg, r1) ∧
      sampleLighting p r1 = .ok (li, r2) ∧
      sampleObjects env p r2 = .ok (ob, r3) ∧
      s = { seed := seed,
            resolution := p.resolution,
            spawn_region := p.spawn_region,
            hdri_world := p.hdri_world,
            hdri_id := bg.hdri_id,
            bg_material := bg.bg_material,
            floor_position := bg.floor_position,
            bg_texture := bg.bg_texture,
            sun_position := li.sun_position,
            ambient_illumination := li.ambient_illumination,
            lighting := p.lighting,
            camera_position := p.camera_position,
            camera_look_at := p.camera_look_at,
            camera_focal_length := p.camera_focal_length,
            camera_sensor_width := p.camera_sensor_width,
            floor_scale := p.floor_scale,
            floor_friction := p.floor_friction,
            floor_restitution := p.floor_restitution,
            velocity_range := p.velocity_range,
            num_objects := ob.num_objects,
            asset_source := p.asset_source,
            object_shapes := ob.object_shapes,
            object_scales := ob.object_scales,
            object_angles_of_rotation := ob.object_angles_of_rotation,
            object_axes_of_rotation := ob.object_axes_of_rotation,
            object_quaternions := ob.object_quaternions,
            object_textures := ob.object_textures,
            object_materials := ob.object_materials } := by
  unfold sampleScene at h
  obtain ⟨⟨bg, r1⟩, h1, h⟩ := except_bind_ok h
  dsimp only at h
  obtain ⟨⟨li, r2⟩, h2, h⟩ := except_bind_ok h
  dsimp only at h
  obtain ⟨⟨ob, r3⟩, h3, h⟩ := except_bind_ok h
  dsimp only at h
  simp only [Except.ok.injEq] at h
  exact ⟨bg, r1, li, r2, ob, r3, h1, h2, h3, h.symm⟩

/-! ### Validation and dataset-level lemmas -/

/-- The conditions accepted by the validation block (dataset.py lines
98-147): shape checks on the list-valued fields and range checks on floor
friction/restitution.  Note that no ordering constraint (spawn-region
corners, object-count range) appears here, mirroring the source. -/
def WellFormedParams (p : Params) : Prop :=
  p.resolution.length = 2 ∧ p.spawn_region.length = 2 ∧
  (∀ sr ∈ p.spawn_region, sr.length = 3) ∧ p.sun_position.length = 3 ∧
  p.camera_position.length = 3 ∧ p.camera_look_at.length = 3 ∧
  p.floor_scale.length = 3 ∧ p.floor_position.length = 3 ∧
  0 ≤ p.floor_friction ∧ p.floor_friction ≤ 1 ∧
  0 ≤ p.floor_restitution ∧ p.floor_restitution ≤ 1

instance (p : Params) : Decidable (WellFormedParams p) := by
  unfold WellFormedParams
  infer_instance

set_option maxHeartbeats 1000000 in
theorem wf_of_validateParams_ok {p : Params}
    (h : validateParams p = .ok ()) : WellFormedParams p := by
  unfold validateParams at h
  split_ifs at h with h1 h2 h3 h4 h5 h6 h7 h8 h9 h10 <;> try simp at h
  push_neg at h1 h2 h3 h4 h5 h6 h7 h8 h9 h10
  exact ⟨h1, h2, h3, h4, h5, h6, h7, h8, h9.2, h9.1, h10.2, h10.1⟩

set_option maxHeartbeats 1000000 in
theorem validateParams_ok_of_wf {p : Params} (h : WellFormedParams p) :
    validateParams p = .ok () := by
  obtain ⟨h1, h2, h3, h4, h5, h6, h7, h8, h9a, h9b, h10a, h10b⟩ := h
  unfold validateParams
  rw [if_neg (by simp [h1]), if_neg (by simp [h2]),
      if_neg (by push_neg; exact h3),
      if_neg (by simp [h4]), if_neg (by simp [h5]), if_neg (by simp [h6]),
      if_neg (by simp [h7]), if_neg (by simp [h8]),
      if_neg (by push_neg; exact ⟨h9b, h9a⟩),
      if_neg (by push_neg; exact ⟨h10b, h10a⟩)]

set_option maxHeartbeats 1000000 in
theorem validateParams_err {p : Params} {e : Err}
    (h : validateParams p = .error e) : ∃ msg, e = .invalidParameter msg := by
  unfold validateParams at h
  split_ifs at h <;> simp only [Except.error.injEq] at h <;>
    first
      | exact ⟨_, h.symm⟩
      | exact absurd h (by simp)

theorem validateParams_error_of_not_wf {p : Params} (h : ¬ WellFormedParams p) :
    ∃ msg, validateParams p = .error (.invalidParameter msg) := by
  cases hv : validateParams p with
  | ok u =>
      cases u
      exact absurd (wf_of_validateParams_ok hv) h
  | error e =>
      obtain ⟨msg, hm⟩ := validateParams_err hv
      exact ⟨msg, by rw [hm]⟩

/-- Inversion of a successful dataset call. -/
theorem latent_dataset_ok {env : Env} {p : Params} {e : Nat → Nat}
    {scenes : List Scene} (h : latent_dataset env p e = .ok scenes) :
    validateParams p = .ok () ∧ p.num_scenes ≤ seedUpperBound ∧
    ∃ scenes0,
      sampleScenes env p (drawSeeds seedUpperBound e p.num_scenes 0 [])
        = .ok scenes0 ∧
      scenes = shareSunPosition scenes0 := by
  unfold latent_dataset at h
  obtain ⟨u, hval, h⟩ := except_bind_ok h
  cases u
  dsimp only at h
  split at h
  case isTrue => exact absurd h (by simp)
  case isFalse hle =>
    obtain ⟨scenes0, hss, h⟩ := except_bind_ok h
    simp only [Except.ok.injEq] at h
    exact ⟨hval, by omega, scenes0, hss, h.symm⟩

/-- The copied fields of a successfully sampled scene. -/
theorem sampleScene_static {env : Env} {p : Params} {sd : Nat} {sc : Scene}
    (h : sampleScene env p sd = .ok sc) :
    sc.seed = sd ∧ sc.resolution = p.resolution ∧
    sc.spawn_region = p.spawn_region ∧ sc.hdri_world = p.hdri_world ∧
    sc.lighting = p.lighting ∧ sc.camera_position = p.camera_position ∧
    sc.camera_look_at = p.camera_look_at ∧
    sc.camera_focal_length = p.camera_focal_length ∧
    sc.camera_sensor_width = p.camera_sensor_width ∧
    sc.floor_scale = p.floor_scale ∧ sc.floor_friction = p.floor_friction ∧
    sc.floor_restitution = p.floor_restitution ∧
    sc.velocity_range = p.velocity_range ∧
    sc.asset_source = p.asset_source := by
  obtain ⟨bg, r1, li, r2, ob, r3, _, _, _, hs⟩ := sampleScene_ok h
  subst hs
  exact ⟨rfl, rfl, rfl, rfl, rfl, rfl, rfl, rfl, rfl, rfl, rfl, rfl, rfl, rfl⟩

theorem sampleScenes_ok {env : Env} {p : Params} :
    ∀ {seeds : List Nat} {scs : List Scene},
      sampleScenes env p seeds = .ok scs →
      scs.map Scene.seed = seeds ∧
      ∀ sc ∈ scs, ∃ sd, sampleScene env p sd = .ok sc := by
  intro seeds
  induction seeds with
  | nil =>
      intro scs h
      simp only [sampleScenes, Except.ok.injEq] at h
      subst h
      simp
  | cons sd rest ih =>
      intro scs h
      unfold sampleScenes at h
      obtain ⟨sc, hsc, h⟩ := except_bind_ok h
      obtain ⟨scs', hrest, h⟩ := except_bind_ok h
      simp only [Except.ok.injEq] at h
      subst h
      obtain ⟨hmap, hmem⟩ := ih hrest
      have hseed : sc.seed = sd := (sampleScene_static hsc).1
      refine ⟨by simp [hmap, hseed], ?_⟩
      intro x hx
      rcases List.mem_cons.mp hx with h | h
      · subst h
        exact ⟨sd, hsc⟩
      · exact hmem x h

theorem sampleScenes_error {env : Env} {p : Params} {sd : Nat}
    {rest : List Nat} {e : Err} (h : sampleScene env p sd = .error e) :
    sampleScenes env p (sd :: rest) = .error e := by
  unfold sampleScenes
  rw [h]
  rfl

theorem shareSunPosition_mem {l : List Scene} {s : Scene}
    (h : s ∈ shareSunPosition l) :
    ∃ s0 ∈ l, ∃ sp, s = { s0 with sun_position := sp } := by
  unfold shareSunPosition at h
  split at h
  · exact ⟨s, h, s.sun_position, rfl⟩
  · obtain ⟨s0, hs0, hmap⟩ := List.mem_map.mp h
    refine ⟨s0, hs0, ?_⟩
    cases hsp : s0.sun_position with
    | none =>
        rw [hsp] at hmap
        exact ⟨s0.sun_position, hmap.symm⟩
    | some w =>
        rw [hsp] at hmap
        exact ⟨_, hmap.symm⟩

theorem shareSunPosition_map_seed (l : List Scene) :
    (shareSunPosition l).map Scene.seed = l.map Scene.seed := by
  unfold shareSunPosition
  split
  · rfl
  · rw [List.map_map]
    apply List.map_congr_left
    intro s _
    cases hsp : s.sun_position <;> simp [hsp]

/-! ### Manifest-independence of the per-scene sampler (for C1) -/

/-- Drop the one field sourced from the HDRI manifest registry. -/
def eraseHdri (s : Scene) : Scene := { s with hdri_id := none }

theorem sampleObjects_hdri_indep (env : Env) (l' : List String) (p : Params)
    (r : RNG) :
    sampleObjects { env with hdriIds := l' } p r = sampleObjects env p r := rfl

theorem initRNG_hdri_indep (env : Env) (l' : List String) (seed : Nat) :
    initRNG { env with hdriIds := l' } seed = initRNG env seed := rfl

theorem sampleBackground_hdri_indep_floor (env : Env) (l' : List String)
    (p : Params) (r : RNG) (hw : p.hdri_world = false) :
    sampleBackground { env with hdriIds := l' } p r
      = sampleBackground env p r := by
  unfold sampleBackground
  rw [hw]
  simp only [Bool.false_eq_true, if_false]

/-! ### Totality and error lemmas for individual stages -/

theorem randint_exists_ok {lo hi : ℤ} (h : lo < hi) (r : RNG) :
    ∃ n r', randint lo hi r = .ok (n, r') := by
  unfold randint
  rw [if_pos h]
  exact ⟨_, _, rfl⟩

theorem sampleShapesScales_invalid {env : Env} {p : Params} {n : ℤ} {r1 : RNG}
    (h1 : p.asset_source ≠ "kubasic") (h2 : p.asset_source ≠ "GSO") :
    sampleShapesScales env p n r1 = .error (.invalidParameter msgAssetSource) := by
  unfold sampleShapesScales
  rw [if_neg h1, if_neg h2]

theorem sampleObjects_err_of_minmax {env : Env} {p : Params} (r : RNG)
    (hmm : p.max_num_objects < p.min_num_objects) :
    sampleObjects env p r = .error .numpyValueError := by
  unfold sampleObjects
  rw [randint_err (by omega) r]
  rfl

theorem sampleBackground_exists_ok {env : Env} {p : Params} (r : RNG)
    (hh : p.hdri_world = true → env.hdriIds ≠ [])
    (hb : p.hdri_world = false →
      p.background_type = "artificial" ∨ p.background_type = "realistic") :
    ∃ bg r', sampleBackground env p r = .ok (bg, r') := by
  unfold sampleBackground
  cases hw : p.hdri_world
  case true =>
    obtain ⟨a, ha⟩ := listChoice_exists_ok (hh hw) r
    simp only [if_true]
    unfold get_hdri_id
    rw [ha]
    exact ⟨_, _, rfl⟩
  case false =>
    simp only [Bool.false_eq_true, if_false]
    rcases hgm : get_material r with ⟨mat, r1⟩
    dsimp only
    rcases hb hw with hart | hreal
    · rw [if_pos hart]
      obtain ⟨k, hk⟩ := listChoice_exists_ok
        (show TEXTURES ≠ [] by simp [TEXTURES]) r1
      rw [hk]
      dsimp only [Bind.bind, Except.bind]
      exact ⟨_, _, rfl⟩
    · have hnart : ¬ p.background_type = "artificial" := by simp [hreal]
      rw [if_neg hnart, if_pos hreal]
      exact ⟨_, _, rfl⟩

theorem sampleLighting_exists_ok {p : Params} (r : RNG)
    (hl : p.lighting = "sun" ∨ p.lighting = "ambient_hdri") :
    ∃ li r', sampleLighting p r = .ok (li, r') := by
  unfold sampleLighting
  rcases hl with h | h
  · rw [if_pos h]
    exact ⟨_, _, rfl⟩
  · have hns : ¬ p.lighting = "sun" := by simp [h]
    rw [if_neg hns, if_pos h]
    exact ⟨_, _, rfl⟩

theorem sampleScene_err_of_minmax {env : Env} {p : Params} {seed : Nat}
    (hh : p.hdri_world = true → env.hdriIds ≠ [])
    (hb : p.hdri_world = false →
      p.background_type = "artificial" ∨ p.background_type = "realistic")
    (hl : p.lighting = "sun" ∨ p.lighting = "ambient_hdri")
    (hmm : p.max_num_objects < p.min_num_objects) :
    sampleScene env p seed = .error .numpyValueError := by
  obtain ⟨bg, r1, hbg⟩ := sampleBackground_exists_ok (initRNG env seed) hh hb
  obtain ⟨li, r2, hli⟩ := sampleLighting_exists_ok r1 hl
  unfold sampleScene
  dsimp only
  rw [hbg]
  dsimp only [Bind.bind, Except.bind]
  rw [hli]
  dsimp only
  rw [sampleObjects_err_of_minmax r2 hmm]

/-- The per-object textures of a successful run all carry palette kinds
(no stream-validity hypothesis needed). -/
theorem sampleObjects_textures {env : Env} {p : Params} {r : RNG}
    {ob : ObjPart} {r' : RNG} (h : sampleObjects env p r = .ok (ob, r')) :
    ∀ t ∈ ob.object_textures, t.kind ∈ TEXTURES := by
  unfold sampleObjects at h
  obtain ⟨⟨n, r1⟩, hrand, h⟩ := except_bind_ok h
  dsimp only at h
  obtain ⟨⟨shapes, scales, r2⟩, hbr, h⟩ := except_bind_ok h
  dsimp only at h
  rcases hun : uniformN 0 (2 * env.pi) n.toNat r2 with ⟨angles, r3⟩
  rw [hun] at h
  dsimp only at h
  obtain ⟨⟨axes, r4⟩, hax, h⟩ := except_bind_ok h
  dsimp only at h
  obtain ⟨⟨texs, r5⟩, htex, h⟩ := except_bind_ok h
  dsimp only at h
  rcases hmat : sampleMaterials n.toNat r5 with ⟨mats, r6⟩
  rw [hmat] at h
  dsimp only at h
  simp only [Except.ok.injEq, Prod.mk.injEq] at h
  obtain ⟨h1, h2⟩ := h
  subst h1
  exact fun t ht => (sampleTextures_ok htex).2.1 t ht

/-! ### Claim theorems -/

/-- C1: for fixed `DatasetParameters` and a fixed seed, the per-scene sampler
is a function of the parameters and of the random stream initialized from
that seed alone: re-running it with the same seed and parameters — even if
the externally re-read HDRI manifest differs between the two invocations —
yields bit-identical `SceneConfig` values on every field except the
manifest-sourced `hdri_id`.  (With the manifest also fixed, taking
`l' = env.hdriIds` gives full bit-identity.) -/
theorem C1_scene_sampler_determinism (env : Env) (l' : List String)
    (p : Params) (seed : Nat) (h1 : env.hdriIds ≠ []) (h2 : l' ≠ []) :
    (sampleScene env p seed).map eraseHdri
      = (sampleScene { env with hdriIds := l' } p seed).map eraseHdri := by
  unfold sampleScene
  simp only [initRNG_hdri_indep, sampleObjects_hdri_indep]
  cases hw : p.hdri_world
  case false =>
    rw [sampleBackground_hdri_indep_floor env l' p _ hw]
  case true =>
    obtain ⟨a, ha⟩ := listChoice_exists_ok h1 (initRNG env seed)
    obtain ⟨b, hb⟩ := listChoice_exists_ok h2 (initRNG env seed)
    have hbgA : sampleBackground env p (initRNG env seed)
        = .ok ({ hdri_id := some a, bg_material := none,
                 floor_position := none, bg_texture := none },
               ((initRNG env seed).next).2) := by
      unfold sampleBackground
      rw [hw]
      simp only [if_true]
      unfold get_hdri_id
      rw [ha]
      rfl
    have hbgB : sampleBackground { env with hdriIds := l' } p (initRNG env seed)
        = .ok ({ hdri_id := some b, bg_material := none,
                 floor_position := none, bg_texture := none },
               ((initRNG env seed).next).2) := by
      unfold sampleBackground
      rw [hw]
      simp only [if_true]
      unfold get_hdri_id
      rw [show ({ env with hdriIds := l' } : Env).hdriIds = l' from rfl, hb]
      rfl
    rw [hbgA, hbgB]
    dsimp only [Bind.bind, Except.bind]
    cases hli : sampleLighting p ((initRNG env seed).next).2 with
    | error e => rfl
    | ok q =>
        obtain ⟨li, r2⟩ := q
        dsimp only
        cases hob : sampleObjects env p r2 with
        | error e => rfl
        | ok w => rfl

/-- C2: for every requested scene count `N ≤ 2147483647`, the seed draw
returns `N` pairwise-distinct integers in `[0, 2147483647)` — for every
entropy of the unseeded generator, i.e. without replacement — and a
successful dataset call assigns exactly these seeds, in order, to the
returned scenes. -/
theorem C2_seed_uniqueness (env : Env) (p : Params) (e : Nat → Nat)
    (hn : p.num_scenes ≤ seedUpperBound) :
    (drawSeeds seedUpperBound e p.num_scenes 0 []).length = p.num_scenes ∧
    (drawSeeds seedUpperBound e p.num_scenes 0 []).Nodup ∧
    (∀ s ∈ drawSeeds seedUpperBound e p.num_scenes 0 [], s < seedUpperBound) ∧
    (∀ scenes, latent_dataset env p e = .ok scenes →
      scenes.map Scene.seed = drawSeeds seedUpperBound e p.num_scenes 0 []) := by
  obtain ⟨hl, hnd, hm⟩ := drawSeeds_spec seedUpperBound e p.num_scenes 0 []
    (by simp) (by simpa using hn)
  refine ⟨hl, hnd, fun s hs => (hm s hs).1, ?_⟩
  intro scenes h
  obtain ⟨_, _, scenes0, hss, hsh⟩ := latent_dataset_ok h
  obtain ⟨hmap, _⟩ := sampleScenes_ok hss
  rw [hsh, shareSunPosition_map_seed, hmap]

/-- C4: mutual-exclusivity invariants of every scene the per-scene sampler
returns: `hdri_world` fixes whether `hdri_id` or `bg_material`/`bg_texture`
are populated, and the lighting mode fixes `sun_position` and
`ambient_illumination` (the latter in `[0.4, 0.7]` in sun mode). -/
theorem C4_mutual_exclusivity (env : Env) (p : Params) (seed : Nat)
    (s : Scene) (hv : ValidStream (env.rand seed))
    (h : sampleScene env p seed = .ok s) :
    (s.hdri_world = true →
      s.hdri_id ≠ none ∧ s.bg_material = none ∧ s.bg_texture = none) ∧
    (s.hdri_world = false →
      s.hdri_id = none ∧ s.bg_material ≠ none ∧ s.bg_texture ≠ none) ∧
    (s.lighting = "sun" →
      s.sun_position ≠ none ∧
      ∃ a, s.ambient_illumination = some a ∧ 2/5 ≤ a ∧ a ≤ 7/10) ∧
    (s.lighting = "ambient_hdri" →
      s.sun_position = none ∧ s.ambient_illumination = none) := by
  obtain ⟨bg, r1, li, r2, ob, r3, hbg, hli, hob, hs⟩ := sampleScene_ok h
  subst hs
  obtain ⟨hr1s, hbgT, hbgF⟩ := sampleBackground_ok hbg
  have hv1 : ValidStream r1.stream := by rw [hr1s]; exact hv
  obtain ⟨hr2s, hlor, hsun, hamb⟩ := sampleLighting_ok hli hv1
  dsimp only
  refine ⟨?_, ?_, ?_, ?_⟩
  · intro hw
    obtain ⟨⟨hid, _, hhid⟩, hm, hfp, ht⟩ := hbgT hw
    exact ⟨by rw [hhid]; simp, hm, ht⟩
  · intro hw
    obtain ⟨hh, ⟨m, hm⟩, _, t, ht⟩ := hbgF hw
    exact ⟨hh, by rw [hm]; simp, by rw [ht]; simp⟩
  · intro hl
    obtain ⟨⟨sp, hsp⟩, a, hha, ha1, ha2⟩ := hsun hl
    exact ⟨by rw [hsp]; simp, a, hha, ha1, le_of_lt ha2⟩
  · intro hl
    exact hamb hl

/-- C7: every scene of a successful dataset call has `num_objects` within
the requested inclusive range and all seven per-object arrays of length
exactly `num_objects`. -/
theorem C7_object_arrays (env : Env) (p : Params) (e : Nat → Nat)
    (scenes : List Scene) (hv : ValidRand env) (hpi : 0 < env.pi)
    (h : latent_dataset env p e = .ok scenes) :
    ∀ s ∈ scenes,
      p.min_num_objects ≤ s.num_objects ∧
      s.num_objects ≤ p.max_num_objects ∧
      s.object_shapes.length = s.num_objects.toNat ∧
      s.object_scales.length = s.num_objects.toNat ∧
      s.object_angles_of_rotation.length = s.num_objects.toNat ∧
      s.object_axes_of_rotation.length = s.num_objects.toNat ∧
      s.object_quaternions.length = s.num_objects.toNat ∧
      s.object_textures.length = s.num_objects.toNat ∧
      s.object_materials.length = s.num_objects.toNat := by
  intro s hs
  obtain ⟨_, _, scenes0, hss, hsh⟩ := latent_dataset_ok h
  rw [hsh] at hs
  obtain ⟨s0, hs0, sp, hseq⟩ := shareSunPosition_mem hs
  obtain ⟨_, hmem⟩ := sampleScenes_ok hss
  obtain ⟨sd, hsd⟩ := hmem s0 hs0
  obtain ⟨bg, r1, li, r2, ob, r3, hbg, hli, hob, hrec⟩ := sampleScene_ok hsd
  have hv0 : ValidStream (initRNG env sd).stream := hv sd
  obtain ⟨hr1s, _, _⟩ := sampleBackground_ok hbg
  have hv1 : ValidStream r1.stream := by rw [hr1s]; exact hv0
  obtain ⟨hr2s, _, _, _⟩ := sampleLighting_ok hli hv1
  have hv2 : ValidStream r2.stream := by rw [hr2s]; exact hv1
  obtain ⟨h1, h2, _, _, h5, h6, h7, h8, h9, h10, h11, _, _, _, _, _⟩ :=
    sampleObjects_ok hob hv2 hpi
  subst hrec; subst hseq
  exact ⟨h1, h2, h5, h6, h7, h8, h9, h10, h11⟩

/-- C9: any of the listed malformation conditions makes the dataset call
fail with the parameter error, for every entropy source (so before and
independently of seed generation), with no scene list produced. -/
theorem C9_validation_rejection (env : Env) (p : Params) (e : Nat → Nat)
    (h : p.resolution.length ≠ 2 ∨ p.spawn_region.length ≠ 2 ∨
      (∃ sr ∈ p.spawn_region, sr.length ≠ 3) ∨ p.sun_position.length ≠ 3 ∨
      p.camera_position.length ≠ 3 ∨ p.camera_look_at.length ≠ 3 ∨
      p.floor_position.length ≠ 3 ∨ p.floor_scale.length ≠ 3 ∨
      p.floor_friction < 0 ∨ 1 < p.floor_friction ∨
      p.floor_restitution < 0 ∨ 1 < p.floor_restitution) :
    ∃ msg, latent_dataset env p e = .error (.invalidParameter msg) := by
  have hnwf : ¬ WellFormedParams p := by
    intro wf
    obtain ⟨w1, w2, w3, w4, w5, w6, w7, w8, w9a, w9b, w10a, w10b⟩ := wf
    rcases h with h|h|h|h|h|h|h|h|h|h|h|h
    · exact h w1
    · exact h w2
    · obtain ⟨sr, hmem, hne⟩ := h
      exact hne (w3 sr hmem)
    · exact h w4
    · exact h w5
    · exact h w6
    · exact h w8
    · exact h w7
    · linarith
    · linarith
    · linarith
    · linarith
  obtain ⟨msg, hval⟩ := validateParams_error_of_not_wf hnwf
  refine ⟨msg, ?_⟩
  unfold latent_dataset
  rw [hval]
  rfl

/-- C10: every texture in `object_textures` carries a kind from the
nine-entry procedural palette; the photographic IMAGE kind never occurs
there, whatever the background type and asset source. -/
theorem C10_object_texture_palette (env : Env) (p : Params) (seed : Nat)
    (s : Scene) (h : sampleScene env p seed = .ok s) :
    ∀ t ∈ s.object_textures, t.kind ∈ TEXTURES ∧ t.kind ≠ imageKind := by
  obtain ⟨bg, r1, li, r2, ob, r3, hbg, hli, hob, hs⟩ := sampleScene_ok h
  subst hs
  intro t ht
  have hmem : t.kind ∈ TEXTURES := sampleObjects_textures hob t ht
  refine ⟨hmem, ?_⟩
  intro heq
  rw [heq] at hmem
  exact (show imageKind ∉ TEXTURES by decide) hmem

/-- C6 (amended): every field of the static block except `floor_position`
is copied from the parameters in both world-model branches; the
`floor_position` key is copied only in the `hdri_world = false` branch and
is absent from the scene record otherwise. -/
theorem C6_static_fields_amended (env : Env) (p : Params) (e : Nat → Nat)
    (scenes : List Scene) (h : latent_dataset env p e = .ok scenes) :
    ∀ s ∈ scenes,
      s.resolution = p.resolution ∧ s.spawn_region = p.spawn_region ∧
      s.camera_position = p.camera_position ∧
      s.camera_look_at = p.camera_look_at ∧
      s.camera_focal_length = p.camera_focal_length ∧
      s.camera_sensor_width = p.camera_sensor_width ∧
      s.floor_scale = p.floor_scale ∧
      s.floor_friction = p.floor_friction ∧
      s.floor_restitution = p.floor_restitution ∧
      s.velocity_range = p.velocity_range ∧
      s.floor_position
        = (if p.hdri_world = true then none else some p.floor_position) := by
  intro s hs
  obtain ⟨_, _, scenes0, hss, hsh⟩ := latent_dataset_ok h
  rw [hsh] at hs
  obtain ⟨s0, hs0, sp, hseq⟩ := shareSunPosition_mem hs
  obtain ⟨_, hmem⟩ := sampleScenes_ok hss
  obtain ⟨sd, hsd⟩ := hmem s0 hs0
  obtain ⟨bg, r1, li, r2, ob, r3, hbg, hli, hob, hrec⟩ := sampleScene_ok hsd
  obtain ⟨_, hbgT, hbgF⟩ := sampleBackground_ok hbg
  subst hrec; subst hseq
  refine ⟨rfl, rfl, rfl, rfl, rfl, rfl, rfl, rfl, rfl, rfl, ?_⟩
  cases hw : p.hdri_world
  case true =>
    rw [if_pos rfl]
    exact (hbgT hw).2.2.1
  case false =>
    rw [if_neg (by simp [hw])]
    exact (hbgF hw).2.2.1

/-- C3 (amended): the validator accepts exactly the length and
friction/restitution conditions — it checks no range ordering, so an
unordered spawn region passes validation — and a parameter set with
`min_num_objects > max_num_objects` also passes validation, failing only
inside the per-scene sampling loop (after seed generation) with numpy's
`ValueError`, not with the dataset call's own parameter error. -/
theorem C3_range_validation_amended :
    (∀ p : Params, validateParams p = .ok () ↔ WellFormedParams p) ∧
    (∀ (env : Env) (p : Params) (e : Nat → Nat),
      WellFormedParams p → p.hdri_world = false →
      p.background_type = "artificial" →
      (p.lighting = "sun" ∨ p.lighting = "ambient_hdri") →
      p.max_num_objects < p.min_num_objects →
      1 ≤ p.num_scenes → p.num_scenes ≤ seedUpperBound →
      latent_dataset env p e = .error .numpyValueError) := by
  constructor
  · intro p
    exact ⟨wf_of_validateParams_ok, validateParams_ok_of_wf⟩
  · intro env p e hwf hw hart hl hmm hn1 hn2
    have herr : sampleScene env p
        (nthUnused [] (e 0 % (seedUpperBound - ([] : List Nat).length)))
        = .error .numpyValueError :=
      sampleScene_err_of_minmax (by rw [hw]; intro hc; cases hc)
        (fun _ => Or.inl hart) hl hmm
    unfold latent_dataset
    rw [validateParams_ok_of_wf hwf]
    dsimp only [Bind.bind, Except.bind]
    rw [if_neg (by omega)]
    obtain ⟨m, hm⟩ : ∃ m, p.num_scenes = m + 1 :=
      ⟨p.num_scenes - 1, by omega⟩
    rw [hm]
    rw [show drawSeeds seedUpperBound e (m + 1) 0 []
        = nthUnused [] (e 0 % (seedUpperBound - ([] : List Nat).length))
          :: drawSeeds seedUpperBound e m 1
              (insertAsc (nthUnused [] (e 0 % (seedUpperBound - ([] : List Nat).length))) [])
        from rfl]
    rw [sampleScenes_error herr]

/-- C8: range invariants of every scene of a successful dataset call
(rotation angles in `[0, 2π)`, axes in `{x,y,z}`, scales in the
asset-source-specific interval, friction/restitution copied and in
`[0,1]`), and rejection of any unrecognized asset source with the
parameter error. -/
theorem C8_range_invariants :
    (∀ (env : Env) (p : Params) (e : Nat → Nat) (scenes : List Scene),
      ValidRand env → 0 < env.pi → latent_dataset env p e = .ok scenes →
      ∀ s ∈ scenes,
        (∀ a ∈ s.object_angles_of_rotation, 0 ≤ a ∧ a < 2 * env.pi) ∧
        (∀ ax ∈ s.object_axes_of_rotation,
          ax = "x" ∨ ax = "y" ∨ ax = "z") ∧
        (s.asset_source = "kubasic" →
          ∀ x ∈ s.object_scales, 3/5 ≤ x ∧ x ≤ 6/5) ∧
        (s.asset_source = "GSO" →
          ∀ x ∈ s.object_scales, 6 ≤ x ∧ x ≤ 10) ∧
        s.floor_friction = p.floor_friction ∧
        0 ≤ s.floor_friction ∧ s.floor_friction ≤ 1 ∧
        s.floor_restitution = p.floor_restitution ∧
        0 ≤ s.floor_restitution ∧ s.floor_restitution ≤ 1) ∧
    (∀ (env : Env) (p : Params) (seed : Nat),
      p.asset_source ≠ "kubasic" → p.asset_source ≠ "GSO" →
      (p.hdri_world = true → env.hdriIds ≠ []) →
      (p.hdri_world = false →
        p.background_type = "artificial" ∨ p.background_type = "realistic") →
      (p.lighting = "sun" ∨ p.lighting = "ambient_hdri") →
      p.min_num_objects ≤ p.max_num_objects →
      sampleScene env p seed = .error (.invalidParameter msgAssetSource)) := by
  constructor
  · intro env p e scenes hv hpi h s hs
    obtain ⟨hval, _, scenes0, hss, hsh⟩ := latent_dataset_ok h
    obtain ⟨_, _, _, _, _, _, _, _, w9a, w9b, w10a, w10b⟩ :=
      wf_of_validateParams_ok hval
    rw [hsh] at hs
    obtain ⟨s0, hs0, sp, hseq⟩ := shareSunPosition_mem hs
    obtain ⟨_, hmem⟩ := sampleScenes_ok hss
    obtain ⟨sd, hsd⟩ := hmem s0 hs0
    obtain ⟨bg, r1, li, r2, ob, r3, hbg, hli, hob, hrec⟩ := sampleScene_ok hsd
    have hv0 : ValidStream (initRNG env sd).stream := hv sd
    obtain ⟨hr1s, _, _⟩ := sampleBackground_ok hbg
    have hv1 : ValidStream r1.stream := by rw [hr1s]; exact hv0
    obtain ⟨hr2s, _, _, _⟩ := sampleLighting_ok hli hv1
    have hv2 : ValidStream r2.stream := by rw [hr2s]; exact hv1
    obtain ⟨_, _, _, _, _, _, _, _, _, _, _, hang, hax, hkb, hgs, _⟩ :=
      sampleObjects_ok hob hv2 hpi
    subst hrec; subst hseq
    refine ⟨hang, hax, ?_, ?_, rfl, w9a, w9b, rfl, w10a, w10b⟩
    · intro ha x hx
      obtain ⟨hx1, hx2⟩ := (hkb ha).1 x hx
      exact ⟨hx1, le_of_lt hx2⟩
    · intro ha x hx
      obtain ⟨hx1, hx2⟩ := (hgs ha).1 x hx
      exact ⟨hx1, le_of_lt hx2⟩
  · intro env p seed h1 h2 hh hb hl hmm
    obtain ⟨bg, r1, hbg⟩ := sampleBackground_exists_ok (initRNG env seed) hh hb
    obtain ⟨li, r2, hli⟩ := sampleLighting_exists_ok r1 hl
    have hobj : sampleObjects env p r2
        = .error (.invalidParameter msgAssetSource) := by
      obtain ⟨n, r3, hrand⟩ := randint_exists_ok
        (show p.min_num_objects < p.max_num_objects + 1 by omega) r2
      unfold sampleObjects
      rw [hrand]
      dsimp only [Bind.bind, Except.bind]
      rw [sampleShapesScales_invalid h1 h2]
    unfold sampleScene
    dsimp only
    rw [hbg]
    dsimp only [Bind.bind, Except.bind]
    rw [hli]
    dsimp only
    rw [hobj]

/-! ### Concrete inputs for witnesses and counterexamples -/

/-- A deterministic stand-in environment: constant per-seed unit draws, an
exact rational stand-in for the float pi constant, trig stand-ins, and
small concrete catalogs. -/
def envW : Env where
  rand := fun seed _ => if seed = 0 then 1/4 else 1/2
  pi := 3
  cosF := fun _ => 1
  sinF := fun _ => 0
  gsoIds := ["gso_a", "gso_b"]
  hdriIds := ["hdri_a"]

/-- Identity entropy for the top-level seed draw. -/
def eW : Nat → Nat := fun i => i

/-- Concrete parameters: the source defaults with two scenes and exactly
one object per scene. -/
def pW : Params where
  num_scenes := 2
  resolution := [256, 144]
  min_num_objects := 1
  max_num_objects := 1
  spawn_region := [[-5/2, -3, 1/5], [5/2, 3, 3/2]]
  lighting := "sun"
  sun_position := [0, 0, 7]
  hdri_world := false
  camera_position := [0, -8, 18/5]
  camera_look_at := [0, 0, 1/2]
  camera_focal_length := 32
  camera_sensor_width := 30
  floor_scale := [20, 40, 1/100]
  floor_position := [0, 0, 0]
  floor_friction := 3/10
  floor_restitution := 1/2
  background_type := "artificial"
  asset_source := "kubasic"
  velocity_range := [(-4, -4, 0), (4, 4, 0)]
  dataset_comment := "test"

/-- `pW` with an HDRI-dome world. -/
def pHdriW : Params := { pW with hdri_world := true, num_scenes := 1 }

/-- `pW` with a spawn region whose min corner exceeds the max corner in
every component. -/
def pUnorderedW : Params :=
  { pW with spawn_region := [[1, 1, 1], [0, 0, 0]], num_scenes := 1 }

/-- `pW` with an unrecognized asset source. -/
def pBadAssetW : Params := { pW with asset_source := "fbx" }

/-- `pW` with a malformed resolution. -/
def pBadResW : Params := { pW with resolution := [256] }

/-- `pW` with an empty object-count range (min above max). -/
def pBadMinMaxW : Params :=
  { pW with min_num_objects := 5, max_num_objects := 2, num_scenes := 1 }

theorem validRandW : ValidRand envW := by
  unfold ValidRand ValidStream
  intro seed k
  dsimp only [envW]
  split <;> norm_num

theorem hpiW : 0 < envW.pi := by norm_num [envW]

/-! ### Counterexamples and the code-bug exhibit -/

/-- C3 counterexample: a parameter set whose spawn-region min corner
exceeds the max corner componentwise is not rejected — the dataset call
succeeds, producing a full scene list, contradicting the claimed fail-fast
validation of range invariants. -/
theorem C3_counterexample :
    exceptIsOk (latent_dataset envW pUnorderedW eW) = true ∧
    pUnorderedW.spawn_region = [[1, 1, 1], [0, 0, 0]] := by
  constructor
  · with_unfolding_all decide
  · with_unfolding_all rfl

/-- C5 code-bug exhibit: with two sun-lit scenes (seeds 0 and 2; the
seed-0 stream draws 1/4, giving sun x = y = -1/2, the seed-2 stream draws
1/2, giving sun x = y = 0), the dataset call returns BOTH scenes with
sun_position [0, 0, 7] — the last scene's draws — although the per-scene
sampler run standalone at seed 0 yields [-1/2, -1/2, 7]: all sun-lit scenes
alias the single input list that is overwritten in place each iteration
(dataset.py lines 199-201). -/
theorem C5_sun_position_aliasing :
    (latent_dataset envW pW eW).map (fun l => l.map Scene.sun_position)
      = .ok [some [0, 0, 7], some [0, 0, 7]] ∧
    (sampleScene envW pW 0).map Scene.sun_position
      = .ok (some [-(1/2), -(1/2), 7]) ∧
    (sampleScene envW pW 2).map Scene.sun_position
      = .ok (some [0, 0, 7]) := by
  refine ⟨?_, ?_, ?_⟩ <;> with_unfolding_all decide

/-- C6 counterexample: with `hdri_world = true` the returned scene has no
`floor_position` entry (modelled as `none`), although the parameters carry
`floor_position = [0, 0, 0]` — the field is not copied in the HDRI branch. -/
theorem C6_counterexample :
    (latent_dataset envW pHdriW eW).map (fun l => l.map Scene.floor_position)
      = .ok [none] ∧
    pHdriW.floor_position = [0, 0, 0] := by
  constructor
  · with_unfolding_all decide
  · with_unfolding_all rfl

/-! ### Witnesses -/

/-- Witness for C1 at a concrete environment, parameter set and seed, with
two different HDRI manifests. -/
theorem C1_witness :
    (sampleScene envW pHdriW 5).map eraseHdri
      = (sampleScene { envW with hdriIds := ["hdri_b", "hdri_c"] }
          pHdriW 5).map eraseHdri :=
  C1_scene_sampler_determinism envW ["hdri_b", "hdri_c"] pHdriW 5
    (by decide) (by decide)

/-- Witness for C2 at the concrete inputs. -/
theorem C2_witness :
    (drawSeeds seedUpperBound eW pW.num_scenes 0 []).length = pW.num_scenes ∧
    (drawSeeds seedUpperBound eW pW.num_scenes 0 []).Nodup ∧
    (∀ s ∈ drawSeeds seedUpperBound eW pW.num_scenes 0 [],
      s < seedUpperBound) ∧
    (∀ scenes, latent_dataset envW pW eW = .ok scenes →
      scenes.map Scene.seed
        = drawSeeds seedUpperBound eW pW.num_scenes 0 []) :=
  C2_seed_uniqueness envW pW eW (by decide)

/-- Witness for C3 (amended) at the concrete inputs. -/
theorem C3_witness :
    (validateParams pW = .ok () ↔ WellFormedParams pW) ∧
    latent_dataset envW pBadMinMaxW eW = .error .numpyValueError :=
  ⟨C3_range_validation_amended.1 pW,
   C3_range_validation_amended.2 envW pBadMinMaxW eW
     (by with_unfolding_all decide) rfl rfl (Or.inl rfl)
     (by decide) (by decide) (by decide)⟩

/-- Witness for C4 at the concrete inputs. -/
theorem C4_witness :
    ∃ s, sampleScene envW pW 0 = .ok s ∧
      ((s.hdri_world = true →
        s.hdri_id ≠ none ∧ s.bg_material = none ∧ s.bg_texture = none) ∧
       (s.hdri_world = false →
        s.hdri_id = none ∧ s.bg_material ≠ none ∧ s.bg_texture ≠ none) ∧
       (s.lighting = "sun" →
        s.sun_position ≠ none ∧
        ∃ a, s.ambient_illumination = some a ∧ 2/5 ≤ a ∧ a ≤ 7/10) ∧
       (s.lighting = "ambient_hdri" →
        s.sun_position = none ∧ s.ambient_illumination = none)) := by
  obtain ⟨s, hs⟩ := exists_ok_of_isOk (sampleScene envW pW 0)
    (by with_unfolding_all decide)
  exact ⟨s, hs, C4_mutual_exclusivity envW pW 0 s (validRandW 0) hs⟩

/-- Witness for C6 (amended) at the concrete inputs. -/
theorem C6_witness :
    ∃ scenes, latent_dataset envW pW eW = .ok scenes ∧
      ∀ s ∈ scenes,
        s.resolution = pW.resolution ∧ s.spawn_region = pW.spawn_region ∧
        s.camera_position = pW.camera_position ∧
        s.camera_look_at = pW.camera_look_at ∧
        s.camera_focal_length = pW.camera_focal_length ∧
        s.camera_sensor_width = pW.camera_sensor_width ∧
        s.floor_scale = pW.floor_scale ∧
        s.floor_friction = pW.floor_friction ∧
        s.floor_restitution = pW.floor_restitution ∧
        s.velocity_range = pW.velocity_range ∧
        s.floor_position
          = (if pW.hdri_world = true then none else some pW.floor_position) := by
  obtain ⟨scenes, hs⟩ := exists_ok_of_isOk (latent_dataset envW pW eW)
    (by with_unfolding_all decide)
  exact ⟨scenes, hs, C6_static_fields_amended envW pW eW scenes hs⟩

/-- Witness for C7 at the concrete inputs. -/
theorem C7_witness :
    ∃ scenes, latent_dataset envW pW eW = .ok scenes ∧
      ∀ s ∈ scenes,
        pW.min_num_objects ≤ s.num_objects ∧
        s.num_objects ≤ pW.max_num_objects ∧
        s.object_shapes.length = s.num_objects.toNat ∧
        s.object_scales.length = s.num_objects.toNat ∧
        s.object_angles_of_rotation.length = s.num_objects.toNat ∧
        s.object_axes_of_rotation.length = s.num_objects.toNat ∧
        s.object_quaternions.length = s.num_objects.toNat ∧
        s.object_textures.length = s.num_objects.toNat ∧
        s.object_materials.length = s.num_objects.toNat := by
  obtain ⟨scenes, hs⟩ := exists_ok_of_isOk (latent_dataset envW pW eW)
    (by with_unfolding_all decide)
  exact ⟨scenes, hs, C7_object_arrays envW pW eW scenes validRandW hpiW hs⟩

/-- Witness for C8 at the concrete inputs: the range part on a successful
call, and the asset-source rejection on a parameter set with an
unrecognized asset source. -/
theorem C8_witness :
    (∃ scenes, latent_dataset envW pW eW = .ok scenes ∧
      ∀ s ∈ scenes,
        (∀ a ∈ s.object_angles_of_rotation, 0 ≤ a ∧ a < 2 * envW.pi) ∧
        (∀ ax ∈ s.object_axes_of_rotation,
          ax = "x" ∨ ax = "y" ∨ ax = "z") ∧
        (s.asset_source = "kubasic" →
          ∀ x ∈ s.object_scales, 3/5 ≤ x ∧ x ≤ 6/5) ∧
        (s.asset_source = "GSO" →
          ∀ x ∈ s.object_scales, 6 ≤ x ∧ x ≤ 10) ∧
        s.floor_friction = pW.floor_friction ∧
        0 ≤ s.floor_friction ∧ s.floor_friction ≤ 1 ∧
        s.floor_restitution = pW.floor_restitution ∧
        0 ≤ s.floor_restitution ∧ s.floor_restitution ≤ 1) ∧
    sampleScene envW pBadAssetW 0
      = .error (.invalidParameter msgAssetSource) := by
  constructor
  · obtain ⟨scenes, hs⟩ := exists_ok_of_isOk (latent_dataset envW pW eW)
      (by with_unfolding_all decide)
    exact ⟨scenes, hs, C8_range_invariants.1 envW pW eW scenes validRandW hpiW hs⟩
  · exact C8_range_invariants.2 envW pBadAssetW 0 (by decide) (by decide)
      (fun hc => absurd hc (by decide)) (fun _ => Or.inl rfl) (Or.inl rfl)
      (by decide)

/-- Witness for C9 at a malformed resolution. -/
theorem C9_witness :
    ∃ msg, latent_dataset envW pBadResW eW = .error (.invalidParameter msg) :=
  C9_validation_rejection envW pBadResW eW (Or.inl (by decide))

/-- Witness for C10 at the concrete inputs. -/
theorem C10_witness :
    ∃ s, sampleScene envW pW 0 = .ok s ∧
      ∀ t ∈ s.object_textures, t.kind ∈ TEXTURES ∧ t.kind ≠ imageKind := by
  obtain ⟨s, hs⟩ := exists_ok_of_isOk (sampleScene envW pW 0)
    (by with_unfolding_all decide)
  exact ⟨s, hs, C10_object_texture_palette envW pW 0 s hs⟩

end RenderStim
